import Mathlib

/-!
Shallow embedding of `src/backend/warehouse_calc.py` (class `WarehouseCalculator`).

Python floats are modelled by exact rationals (`ℚ`); JSON scalar values reaching
the calculator are modelled by `PyVal` (a number or a string), with absent
(`None`) values modelled by `Option.none` at the use sites.  Python exceptions
(`raise ValueError`) are modelled by `Except String`.
-/

/-- A JSON scalar as it reaches the calculator: a number or a string. -/
inductive PyVal where
  | num (q : ℚ)
  | str (s : String)
deriving DecidableEq, Repr

/-- ASCII lower-casing of one character, as Python's `str.lower` acts on the
ASCII unit strings the calculator receives. -/
def charLower (c : Char) : Char :=
  if 'A' ≤ c ∧ c ≤ 'Z' then Char.ofNat (c.toNat + 32) else c

/-- Model of Python's `str.lower` (restricted to ASCII, which covers every
unit string in the conversion table). -/
def strLower (s : String) : String :=
  ⟨s.data.map charLower⟩

/-- Numeric value of a list of decimal digits. -/
def digitsVal (cs : List Char) : ℕ :=
  cs.foldl (fun a c => a * 10 + (c.toNat - 48)) 0

/-- ASCII whitespace accepted around a Python float literal. -/
def isPySpace (c : Char) : Bool :=
  c = ' ' || c = Char.ofNat 9 || c = Char.ofNat 10 || c = Char.ofNat 13 ||
    c = Char.ofNat 11 || c = Char.ofNat 12

/-- Strip surrounding whitespace, as `float()` does. -/
def stripPySpace (cs : List Char) : List Char :=
  ((cs.dropWhile isPySpace).reverse.dropWhile isPySpace).reverse

/-- Tail check for a Python digitpart: decimal digits with single underscores
strictly between digits. -/
def digitpartAux : List Char → Bool
  | [] => true
  | '_' :: c :: t => c.isDigit && digitpartAux t
  | '_' :: [] => false
  | c :: t => c.isDigit && digitpartAux t

/-- A Python digitpart: nonempty, starts with a digit, single underscore
separators only between digits (the grammar of `float()` literals). -/
def isDigitpart (cs : List Char) : Bool :=
  match cs with
  | [] => false
  | c :: _ => c.isDigit && digitpartAux cs

/-- Numeric value of a digitpart, or `none` when malformed. -/
def parseDigitpart (cs : List Char) : Option ℕ :=
  if isDigitpart cs then some (digitsVal (cs.filter (fun c => c ≠ '_'))) else none

/-- Number of digits of a fractional digitpart, underscores dropped. -/
def fracLen (fp : List Char) : ℕ :=
  (fp.filter (fun c => c ≠ '_')).length

/-- The mantissa of a Python float literal, evaluated exactly: `digitpart`,
`digitpart "."`, `digitpart "." digitpart`, or `"." digitpart`. -/
def parsePyNumber (cs : List Char) : Option ℚ :=
  let ip := cs.takeWhile (fun c => c ≠ '.')
  match cs.dropWhile (fun c => c ≠ '.') with
  | [] =>
    match parseDigitpart ip with
    | some n => some (n : ℚ)
    | none => none
  | _ :: fp =>
    if fp.contains '.' then none
    else
      match ip, fp with
      | [], [] => none
      | [], _ :: _ =>
        match parseDigitpart fp with
        | some m => some ((m : ℚ) / (10 : ℚ) ^ fracLen fp)
        | none => none
      | _ :: _, [] =>
        match parseDigitpart ip with
        | some n => some (n : ℚ)
        | none => none
      | _ :: _, _ :: _ =>
        match parseDigitpart ip, parseDigitpart fp with
        | some n, some m => some ((n : ℚ) + (m : ℚ) / (10 : ℚ) ^ fracLen fp)
        | _, _ => none

/-- Split a literal at its first exponent marker `e` or `E`. -/
def splitOnExp (cs : List Char) : List Char × Option (List Char) :=
  match cs.dropWhile (fun c => c ≠ 'e' ∧ c ≠ 'E') with
  | [] => (cs, none)
  | _ :: rest => (cs.takeWhile (fun c => c ≠ 'e' ∧ c ≠ 'E'), some rest)

/-- The exponent of a Python float literal: an optional sign and a digitpart. -/
def parseExp (cs : List Char) : Option Int :=
  match cs with
  | '-' :: t => (parseDigitpart t).map (fun n => -(n : Int))
  | '+' :: t => (parseDigitpart t).map (fun n => (n : Int))
  | t => (parseDigitpart t).map (fun n => (n : Int))

/-- Scale by a power of ten with an integer exponent, exactly. -/
def applyExp (q : ℚ) (e : Int) : ℚ :=
  if 0 ≤ e then q * (10 : ℚ) ^ e.toNat else q / (10 : ℚ) ^ (-e).toNat

/-- The case-insensitive special tokens `float()` maps to IEEE non-finite
values. -/
def parsePyNonFinite (cs : List Char) : Bool :=
  let l := cs.map charLower
  l = "inf".data || l = "infinity".data || l = "nan".data

/-- True when the string, after surrounding whitespace and an optional sign,
is one of the special tokens `inf`, `infinity` or `nan`, which `float()`
accepts with an IEEE non-finite result. -/
def isPyNonFiniteStr (s : String) : Bool :=
  parsePyNonFinite
    (match stripPySpace s.data with
     | '-' :: t => t
     | '+' :: t => t
     | t => t)

/-- Shallow model of the Python builtin `float()` on ASCII strings:
surrounding whitespace, an optional sign, then a decimal literal with an
optional fractional part, an optional exponent, and underscore digit
separators, all evaluated exactly in ℚ.  Strings that `float()` maps to IEEE
non-finite values (`inf`, `infinity`, `nan` — see `isPyNonFiniteStr`) have no
rational counterpart and yield `none` here, outside the scope of this
embedding; on every other ASCII string, `none` is returned exactly where
`float()` raises `ValueError`. -/
def parsePyFloat (s : String) : Option ℚ :=
  let cs := stripPySpace s.data
  let signed : Bool × List Char :=
    match cs with
    | '-' :: t => (true, t)
    | '+' :: t => (false, t)
    | t => (false, t)
  let neg := signed.1
  let body := signed.2
  if parsePyNonFinite body then none
  else
    match parsePyNumber (splitOnExp body).1, (splitOnExp body).2 with
    | some q, none => some (if neg then -q else q)
    | some q, some ecs =>
      match parseExp ecs with
      | some e => some (if neg then -applyExp q e else applyExp q e)
      | none => none
    | none, _ => none

/-- Numeric value of a `PyVal`, mirroring `float(value)`: numbers pass
through, strings are parsed; `none` where `float()` raises `ValueError`. -/
def pyFloat : PyVal → Option ℚ
  | PyVal.num q => some q
  | PyVal.str s => parsePyFloat s

/-- The fixed conversion table `self.conversion_factors` of
`WarehouseCalculator.__init__`. -/
def conversion_factors (u : String) : Option ℚ :=
  if u = "cm" then some 1
  else if u = "m" then some 100
  else if u = "km" then some 100000
  else if u = "in" then some (254 / 100)
  else if u = "ft" then some (3048 / 100)
  else if u = "yd" then some (9144 / 100)
  else if u = "mm" then some (1 / 10)
  else none

/-- Minimal sensible rack width in cm (`self.MIN_RACK_WIDTH_CM`). -/
def MIN_RACK_WIDTH_CM : ℚ := 1

/-- Minimal sensible rack length in cm (`self.MIN_RACK_LENGTH_CM`). -/
def MIN_RACK_LENGTH_CM : ℚ := 1

/-- Minimal sensible floor height in cm (`self.MIN_FLOOR_HEIGHT_CM`). -/
def MIN_FLOOR_HEIGHT_CM : ℚ := 10

/-- Embedding of `WarehouseCalculator.to_cm`: `None` and unparseable values
degrade to `0.0`; otherwise the numeric value is scaled by the factor found
in the table under the lower-cased unit, with a default factor of `1.0`. -/
def to_cm (value : Option PyVal) (unit : String) : ℚ :=
  match value with
  | none => 0
  | some v =>
    match pyFloat v with
    | none => 0
    | some val => val * ((conversion_factors (strLower unit)).getD 1)

/-- The `warehouse_dimensions` entry of the configuration. -/
structure WarehouseDims where
  width : Option PyVal
  length : Option PyVal
  height : Option PyVal
  unit : String
deriving Repr

/-- The `aisle_config` entry of one workstation configuration. -/
structure AisleConfig where
  gap_front : Option PyVal
  gap_back : Option PyVal
  gap_left : Option PyVal
  gap_right : Option PyVal
  wall_gap_unit : String
  num_rows : Int
  num_floors : Int
  num_aisles : Int
  custom_gaps : List (Option PyVal)
deriving Repr

/-- The `position` entry of one pallet configuration. -/
structure PalletPos where
  floor : Int
  row : Int
  col : Int
deriving DecidableEq, Repr

/-- One entry of `pallet_configs`; optional fields model `dict.get` defaults. -/
structure PalletConfig where
  type : String
  color : Option String
  length_cm : Option ℚ
  width_cm : Option ℚ
  height_cm : Option ℚ
  position : PalletPos
deriving Repr

/-- One entry of `workstation_configs`. -/
structure WorkstationConfig where
  aisle_config : AisleConfig
  pallet_configs : List PalletConfig
deriving Repr

/-- The whole configuration dictionary passed to `create_warehouse_layout`. -/
structure WarehouseConfig where
  warehouse_dimensions : WarehouseDims
  num_workstations : Int
  workstation_gap : Option PyVal
  workstation_gap_unit : String
  workstation_configs : List WorkstationConfig
deriving Repr

/-- An output position record. -/
structure Position3 where
  x : ℚ
  y : ℚ
  z : ℚ
deriving DecidableEq, Repr

/-- An output dimensions record. -/
structure Dim3 where
  width : ℚ
  length : ℚ
  height : ℚ
deriving DecidableEq, Repr

/-- The `indices` record of one aisle slot (all 1-based). -/
structure SlotIndices where
  floor : Int
  row : Int
  col : Int
deriving DecidableEq, Repr

/-- A pallet descriptor attached to a slot. -/
structure PalletOut where
  type : String
  color : String
  length : ℚ
  width : ℚ
  height : ℚ
deriving DecidableEq, Repr

/-- One emitted aisle slot. -/
structure AisleEntry where
  id : String
  position : Position3
  dimensions : Dim3
  indices : SlotIndices
  pallets : List PalletOut
deriving DecidableEq, Repr

/-- One emitted workstation record. -/
structure WorkstationOut where
  id : String
  workstation_index : Nat
  position : Position3
  dimensions : Dim3
  aisles : List AisleEntry
deriving DecidableEq, Repr

/-- The returned layout dictionary. -/
structure WarehouseLayout where
  width : ℚ
  length : ℚ
  height : ℚ
  workstations : List WorkstationOut
deriving DecidableEq, Repr

/-- Resolved warehouse width `W` in cm (line 36 of the source). -/
def resolvedW (config : WarehouseConfig) : ℚ :=
  to_cm config.warehouse_dimensions.width config.warehouse_dimensions.unit

/-- Resolved warehouse length `L` in cm (line 37 of the source). -/
def resolvedL (config : WarehouseConfig) : ℚ :=
  to_cm config.warehouse_dimensions.length config.warehouse_dimensions.unit

/-- Resolved warehouse height `H` in cm (line 38 of the source). -/
def resolvedH (config : WarehouseConfig) : ℚ :=
  to_cm config.warehouse_dimensions.height config.warehouse_dimensions.unit

/-- Resolved inter-workstation gap `bg` in cm (line 44 of the source). -/
def resolvedBg (config : WarehouseConfig) : ℚ :=
  to_cm config.workstation_gap config.workstation_gap_unit

/-- `total_gaps = bg * (n_workstations - 1) if n_workstations > 1 else 0`. -/
def totalGaps (config : WarehouseConfig) : ℚ :=
  if 1 < config.num_workstations then
    resolvedBg config * ((config.num_workstations : ℚ) - 1)
  else 0

/-- `workstation_w = (W - total_gaps) / n_workstations if n_workstations > 0 else 0`. -/
def workstationW (config : WarehouseConfig) : ℚ :=
  if 0 < config.num_workstations then
    (resolvedW config - totalGaps config) / (config.num_workstations : ℚ)
  else 0

/-- Resolved front wall gap `gf` of one workstation. -/
def resolvedGf (rc : AisleConfig) : ℚ := to_cm rc.gap_front rc.wall_gap_unit

/-- Resolved back wall gap `gb` of one workstation. -/
def resolvedGb (rc : AisleConfig) : ℚ := to_cm rc.gap_back rc.wall_gap_unit

/-- Resolved left wall gap `gl` of one workstation. -/
def resolvedGl (rc : AisleConfig) : ℚ := to_cm rc.gap_left rc.wall_gap_unit

/-- Resolved right wall gap `gr` of one workstation. -/
def resolvedGr (rc : AisleConfig) : ℚ := to_cm rc.gap_right rc.wall_gap_unit

/-- `avail_w = workstation_w - gl - gr`. -/
def availW (ww : ℚ) (rc : AisleConfig) : ℚ :=
  ww - resolvedGl rc - resolvedGr rc

/-- `avail_l = L - gf - gb`. -/
def availL (L : ℚ) (rc : AisleConfig) : ℚ :=
  L - resolvedGf rc - resolvedGb rc

/-- `custom_gaps = [to_cm(g, wall_gap_unit) for g in rc.get('custom_gaps', [])]`. -/
def customGaps (rc : AisleConfig) : List ℚ :=
  rc.custom_gaps.map (fun g => to_cm g rc.wall_gap_unit)

/-- `total_custom_gaps = sum(custom_gaps[:num_aisles-1]) if custom_gaps and num_aisles > 1 else 0`. -/
def totalCustomGaps (rc : AisleConfig) : ℚ :=
  if customGaps rc ≠ [] ∧ 1 < rc.num_aisles then
    ((customGaps rc).take (rc.num_aisles - 1).toNat).sum
  else 0

/-- `aisle_w = (avail_w - total_custom_gaps) / num_aisles if num_aisles > 0 else 0`. -/
def aisleW (ww : ℚ) (rc : AisleConfig) : ℚ :=
  if 0 < rc.num_aisles then
    (availW ww rc - totalCustomGaps rc) / (rc.num_aisles : ℚ)
  else 0

/-- `aisle_l = avail_l / rows if rows > 0 else 0`. -/
def aisleL (L : ℚ) (rc : AisleConfig) : ℚ :=
  if 0 < rc.num_rows then availL L rc / (rc.num_rows : ℚ) else 0

/-- `floor_h = H / floors if floors > 0 else 0`. -/
def floorH (H : ℚ) (rc : AisleConfig) : ℚ :=
  if 0 < rc.num_floors then H / (rc.num_floors : ℚ) else 0

/-- `workstation_start_x = i * (workstation_w + bg)` for the workstation at
list position `i` (line 68 of the source). -/
def workstationStartX (config : WarehouseConfig) (i : Nat) : ℚ :=
  (i : ℚ) * (workstationW config + resolvedBg config)

/-- The pallet-matching test of line 177 of the source:
`pos['floor'] == f+1 and pos['row'] == r+1 and pos['col'] == c+1`. -/
def matchesSlot (f r c : Nat) (p : PalletConfig) : Bool :=
  p.position.floor == (f : Int) + 1 && p.position.row == (r : Int) + 1
    && p.position.col == (c : Int) + 1

/-- The pallet descriptor appended at lines 178-186 of the source, with the
`dict.get` defaults for color and dimensions. -/
def palletOut (p : PalletConfig) : PalletOut :=
  { type := p.type
    color := p.color.getD "#8B4513"
    length := p.length_cm.getD 0
    width := p.width_cm.getD 0
    height := p.height_cm.getD 0 }

/-- The `aisle_entry` dictionary built at lines 155-186 of the source for the
slot of (0-based) row `r`, column `c` and floor `f` of workstation `i`. -/
def mkAisleEntry (i r c f : Nat) (x y z aw al fh : ℚ)
    (pallets : List PalletConfig) : AisleEntry :=
  { id := "aisle-" ++ toString i ++ "-" ++ toString r ++ "-" ++ toString c
      ++ "-" ++ toString f
    position := { x := x, y := y, z := z }
    dimensions := { width := aw, length := al, height := fh }
    indices := { floor := (f : Int) + 1, row := (r : Int) + 1, col := (c : Int) + 1 }
    pallets := (pallets.filter (matchesSlot f r c)).map palletOut }

/-- The innermost floor loop (lines 152-188): one entry per floor, at height
`f * floor_h`. -/
def buildFloors (i r c : Nat) (floors : Nat) (x y aw al fh : ℚ)
    (pallets : List PalletConfig) : List AisleEntry :=
  (List.range floors).map (fun f => mkAisleEntry i r c f x y ((f : ℚ) * fh) aw al fh pallets)

/-- The custom-gap advance of lines 148-149:
`if c > 0 and (c-1) < len(custom_gaps): current_x += custom_gaps[c-1]`. -/
def colStep (gaps : List ℚ) (c : Nat) (x : ℚ) : ℚ :=
  if 0 < c ∧ c - 1 < gaps.length then x + gaps.getD (c - 1) 0 else x

/-- The column loop of lines 146-191, emitting the remaining `rem` columns
starting at column index `c` with running X coordinate `x`: the custom gap is
added before each column (except the first), the floor entries are emitted,
then the X coordinate advances by the aisle width. -/
def buildColsFrom (i r : Nat) (gaps : List ℚ) (aw al fh y : ℚ) (floors : Nat)
    (pallets : List PalletConfig) : Nat → Nat → ℚ → List AisleEntry
  | _, 0, _ => []
  | c, Nat.succ rem, x =>
    buildFloors i r c floors (colStep gaps c x) y aw al fh pallets
      ++ buildColsFrom i r gaps aw al fh y floors pallets (c + 1) rem (colStep gaps c x + aw)

/-- The `aisles_data` list of one workstation: the row loop of lines 139-191,
with the X coordinate reset to `workstation_start_x + gl` at each row. -/
def wsAisles (L H ww bg : ℚ) (i : Nat) (b : WorkstationConfig) : List AisleEntry :=
  (List.range b.aisle_config.num_rows.toNat).flatMap (fun r =>
    buildColsFrom i r (customGaps b.aisle_config) (aisleW ww b.aisle_config)
      (aisleL L b.aisle_config) (floorH H b.aisle_config)
      (resolvedGf b.aisle_config + (r : ℚ) * aisleL L b.aisle_config)
      b.aisle_config.num_floors.toNat b.pallet_configs
      0 b.aisle_config.num_aisles.toNat
      ((i : ℚ) * (ww + bg) + resolvedGl b.aisle_config))

/-- The workstation record appended at lines 193-207 of the source. -/
def wsOutput (L H ww bg : ℚ) (i : Nat) (b : WorkstationConfig) : WorkstationOut :=
  { id := "workstation_" ++ toString (i + 1)
    workstation_index := i
    position := { x := (i : ℚ) * (ww + bg), y := 0, z := 0 }
    dimensions := { width := ww, length := L, height := H }
    aisles := wsAisles L H ww bg i b }

/-- Embedding of the per-workstation body of the loop at lines 66-207: the
validation checks in source order, then the workstation record. -/
def processWorkstation (L H ww bg : ℚ) (i : Nat) (b : WorkstationConfig) :
    Except String WorkstationOut :=
  if availW ww b.aisle_config ≤ 0 then
    .error ("Workstation " ++ toString (i + 1)
      ++ ": wall gaps (left/right) consume all width. Reduce left/right wall gaps or increase warehouse width.")
  else if availL L b.aisle_config ≤ 0 then
    .error ("Workstation " ++ toString (i + 1)
      ++ ": wall gaps (front/back) consume all length. Reduce front/back wall gaps or increase warehouse length.")
  else if b.aisle_config.num_rows ≤ 0 then
    .error ("Workstation " ++ toString (i + 1) ++ ": number of rows must be at least 1.")
  else if b.aisle_config.num_floors ≤ 0 then
    .error ("Workstation " ++ toString (i + 1) ++ ": number of floors must be at least 1.")
  else if b.aisle_config.num_aisles ≤ 0 then
    .error ("Workstation " ++ toString (i + 1) ++ ": number of aisles must be at least 1.")
  else if availW ww b.aisle_config ≤ totalCustomGaps b.aisle_config then
    .error ("Workstation " ++ toString (i + 1)
      ++ ": sum of aisle gaps is greater than or equal to available workstation width. Reduce aisle gaps, reduce number of aisles, or increase warehouse width.")
  else if aisleW ww b.aisle_config < MIN_RACK_WIDTH_CM then
    .error ("Workstation " ++ toString (i + 1)
      ++ ": aisle width is too small. Decrease number of aisles or aisle gaps, or increase warehouse width.")
  else if aisleL L b.aisle_config < MIN_RACK_LENGTH_CM then
    .error ("Workstation " ++ toString (i + 1)
      ++ ": aisle length is too small. Decrease number of rows or increase warehouse length.")
  else if floorH H b.aisle_config < MIN_FLOOR_HEIGHT_CM then
    .error ("Workstation " ++ toString (i + 1)
      ++ ": floor/aisle height is too small for the given number of floors and warehouse height. Reduce number of floors or increase warehouse height.")
  else
    .ok (wsOutput L H ww bg i b)

/-- The workstation loop of line 66 (`for i, b_conf in enumerate(...)`), with
the first raised error aborting the whole computation. -/
def processAll (L H ww bg : ℚ) : Nat → List WorkstationConfig → Except String (List WorkstationOut)
  | _, [] => .ok []
  | i, b :: bs =>
    match processWorkstation L H ww bg i b with
    | .error e => .error e
    | .ok w =>
      match processAll L H ww bg (i + 1) bs with
      | .error e => .error e
      | .ok ws => .ok (w :: ws)

/-- Embedding of `WarehouseCalculator.create_warehouse_layout`. -/
def create_warehouse_layout (config : WarehouseConfig) : Except String WarehouseLayout :=
  if resolvedW config ≤ 0 ∨ resolvedL config ≤ 0 ∨ resolvedH config ≤ 0 then
    .error "Warehouse dimensions must be greater than zero."
  else if config.num_workstations ≤ 0 then
    .error "Number of workstations must be at least 1."
  else if resolvedBg config < 0 then
    .error "Workstation gap cannot be negative."
  else if resolvedW config ≤ totalGaps config then
    .error "Total workstation gaps are greater than or equal to warehouse width. Reduce workstation gap or number of workstations, or increase warehouse width."
  else if workstationW config ≤ 0 then
    .error "Computed workstation width is not positive. Check warehouse width, workstation gap and number of workstations."
  else
    match processAll (resolvedL config) (resolvedH config) (workstationW config)
        (resolvedBg config) 0 config.workstation_configs with
    | .error e => .error e
    | .ok ws =>
      .ok { width := resolvedW config, length := resolvedL config, height := resolvedH config,
            workstations := ws }

/-- The per-workstation validation conditions, in source order: one
workstation is processed without raising exactly when all of them hold. -/
def validWs (L H ww : ℚ) (b : WorkstationConfig) : Prop :=
  ¬(availW ww b.aisle_config ≤ 0) ∧
  ¬(availL L b.aisle_config ≤ 0) ∧
  ¬(b.aisle_config.num_rows ≤ 0) ∧
  ¬(b.aisle_config.num_floors ≤ 0) ∧
  ¬(b.aisle_config.num_aisles ≤ 0) ∧
  ¬(availW ww b.aisle_config ≤ totalCustomGaps b.aisle_config) ∧
  ¬(aisleW ww b.aisle_config < MIN_RACK_WIDTH_CM) ∧
  ¬(aisleL L b.aisle_config < MIN_RACK_LENGTH_CM) ∧
  ¬(floorH H b.aisle_config < MIN_FLOOR_HEIGHT_CM)

/-- The warehouse-level validation conditions, in source order. -/
def validTop (config : WarehouseConfig) : Prop :=
  ¬(resolvedW config ≤ 0 ∨ resolvedL config ≤ 0 ∨ resolvedH config ≤ 0) ∧
  ¬(config.num_workstations ≤ 0) ∧
  ¬(resolvedBg config < 0) ∧
  ¬(resolvedW config ≤ totalGaps config) ∧
  ¬(workstationW config ≤ 0)

/-- The list of workstation records produced by the loop when no check fails. -/
def wsOutputs (L H ww bg : ℚ) : Nat → List WorkstationConfig → List WorkstationOut
  | _, [] => []
  | i, b :: bs => wsOutput L H ww bg i b :: wsOutputs L H ww bg (i + 1) bs

/-- The layout returned on success. -/
def layoutOutput (config : WarehouseConfig) : WarehouseLayout :=
  { width := resolvedW config
    length := resolvedL config
    height := resolvedH config
    workstations := wsOutputs (resolvedL config) (resolvedH config)
      (workstationW config) (resolvedBg config) 0 config.workstation_configs }

lemma processWorkstation_ok_iff {L H ww bg : ℚ} {i : Nat} {b : WorkstationConfig}
    {w : WorkstationOut} :
    processWorkstation L H ww bg i b = .ok w ↔
      validWs L H ww b ∧ w = wsOutput L H ww bg i b := by
  unfold processWorkstation validWs
  split_ifs with h1 h2 h3 h4 h5 h6 h7 h8 h9 <;> simp_all <;> tauto

lemma processAll_ok_iff {L H ww bg : ℚ} (bs : List WorkstationConfig) (i : Nat)
    (ws : List WorkstationOut) :
    processAll L H ww bg i bs = .ok ws ↔
      ((∀ b ∈ bs, validWs L H ww b) ∧ ws = wsOutputs L H ww bg i bs) := by
  induction bs generalizing i ws with
  | nil => simp [processAll, wsOutputs, eq_comm]
  | cons b bs ih =>
    simp only [processAll]
    cases hpb : processWorkstation L H ww bg i b with
    | error e =>
      constructor
      · intro h; exact absurd h (by simp)
      · rintro ⟨hv, -⟩
        have h2 : processWorkstation L H ww bg i b = .ok (wsOutput L H ww bg i b) :=
          processWorkstation_ok_iff.mpr ⟨hv b (by simp), rfl⟩
        rw [hpb] at h2
        exact absurd h2 (by simp)
    | ok w =>
      obtain ⟨hvb, hw⟩ := processWorkstation_ok_iff.mp hpb
      cases hps : processAll L H ww bg (i + 1) bs with
      | error e =>
        constructor
        · intro h; exact absurd h (by simp)
        · rintro ⟨hv, -⟩
          have h2 := (ih (i + 1) (wsOutputs L H ww bg (i + 1) bs)).mpr
            ⟨fun x hx => hv x (List.mem_cons_of_mem _ hx), rfl⟩
          rw [hps] at h2
          exact absurd h2 (by simp)
      | ok tail =>
        obtain ⟨hv, ht⟩ := (ih (i + 1) tail).mp hps
        constructor
        · intro h
          replace h : w :: tail = ws := by simpa using h
          refine ⟨?_, ?_⟩
          · intro x hx
            rcases List.mem_cons.mp hx with hx1 | hx2
            · rw [hx1]; exact hvb
            · exact hv x hx2
          · rw [← h, hw, ht, wsOutputs]
        · rintro ⟨-, rfl⟩
          rw [hw, ht]
          simp [wsOutputs]

lemma create_ok_iff {config : WarehouseConfig} {layout : WarehouseLayout} :
    create_warehouse_layout config = .ok layout ↔
      validTop config ∧
        (∀ b ∈ config.workstation_configs,
          validWs (resolvedL config) (resolvedH config) (workstationW config) b) ∧
        layout = layoutOutput config := by
  unfold create_warehouse_layout validTop
  split_ifs with h1 h2 h3 h4 h5
  · exact iff_of_false (by simp) (by tauto)
  · exact iff_of_false (by simp) (by tauto)
  · exact iff_of_false (by simp) (by tauto)
  · exact iff_of_false (by simp) (by tauto)
  · exact iff_of_false (by simp) (by tauto)
  · cases hps : processAll (resolvedL config) (resolvedH config) (workstationW config)
        (resolvedBg config) 0 config.workstation_configs with
    | error e =>
      constructor
      · intro h; exact absurd h (by simp)
      · rintro ⟨-, hv, -⟩
        have h2 : processAll (resolvedL config) (resolvedH config) (workstationW config)
            (resolvedBg config) 0 config.workstation_configs =
            .ok (wsOutputs (resolvedL config) (resolvedH config) (workstationW config)
              (resolvedBg config) 0 config.workstation_configs) :=
          (processAll_ok_iff _ 0 _).mpr ⟨hv, rfl⟩
        rw [hps] at h2
        exact absurd h2 (by simp)
    | ok ws =>
      obtain ⟨hv, hws⟩ := (processAll_ok_iff _ 0 ws).mp hps
      subst hws
      constructor
      · intro h
        replace h : Except.ok (layoutOutput config) = Except.ok layout := h
        exact ⟨⟨h1, h2, h3, h4, h5⟩, hv, (Except.ok.inj h).symm⟩
      · rintro ⟨-, -, rfl⟩
        simp [layoutOutput]

lemma wsOutputs_length (L H ww bg : ℚ) :
    ∀ (i : Nat) (bs : List WorkstationConfig),
      (wsOutputs L H ww bg i bs).length = bs.length
  | _, [] => rfl
  | i, b :: bs => by
    simp [wsOutputs, wsOutputs_length L H ww bg (i + 1) bs]

lemma wsOutputs_get (L H ww bg : ℚ) :
    ∀ (bs : List WorkstationConfig) (i k : Nat) (hk : k < bs.length)
      (hk2 : k < (wsOutputs L H ww bg i bs).length),
      (wsOutputs L H ww bg i bs).get ⟨k, hk2⟩ = wsOutput L H ww bg (i + k) (bs.get ⟨k, hk⟩)
  | [], _, k, hk, _ => absurd hk (by simp)
  | b :: bs, i, 0, hk, hk2 => by simp [wsOutputs]
  | b :: bs, i, k + 1, hk, hk2 => by
    have hk' : k < bs.length := by simpa using hk
    have hk2' : k < (wsOutputs L H ww bg (i + 1) bs).length := by
      rw [wsOutputs_length]; exact hk'
    have := wsOutputs_get L H ww bg bs (i + 1) k hk' hk2'
    simp only [wsOutputs, List.get_cons_succ]
    rw [this]
    congr 1
    omega

/-- Closed form of the running X coordinate at column `c`: the start plus `c`
aisle widths plus every custom gap inserted before column `c`. -/
def slotX (x0 aw : ℚ) (gaps : List ℚ) (c : Nat) : ℚ :=
  x0 + (c : ℚ) * aw + (gaps.take c).sum

lemma take_sum_succ (l : List ℚ) (c : Nat) :
    (l.take (c + 1)).sum = (l.take c).sum + l.getD c 0 := by
  rw [List.take_succ, List.sum_append]
  congr 1
  rcases h : l[c]? with _ | a <;>
    simp [List.getD_eq_getElem?_getD, h]

lemma colStep_zero (gaps : List ℚ) (x : ℚ) : colStep gaps 0 x = x := by
  simp [colStep]

lemma colStep_succ (gaps : List ℚ) (c : Nat) (x : ℚ) :
    colStep gaps (c + 1) x = x + gaps.getD c 0 := by
  unfold colStep
  rcases lt_or_le c gaps.length with h | h
  · simp [h]
  · rw [if_neg, List.getD_eq_default _ _ h, add_zero]
    simp [Nat.not_lt.mpr h]

lemma slotX_zero (x0 aw : ℚ) (gaps : List ℚ) : slotX x0 aw gaps 0 = x0 := by
  simp [slotX]

lemma slotX_succ (x0 aw : ℚ) (gaps : List ℚ) (c : Nat) :
    slotX x0 aw gaps (c + 1) = slotX x0 aw gaps c + aw + gaps.getD c 0 := by
  unfold slotX
  rw [take_sum_succ]
  push_cast
  ring

lemma buildColsFrom_eq (i r : Nat) (gaps : List ℚ) (aw al fh y : ℚ) (floors : Nat)
    (ps : List PalletConfig) (x0 : ℚ) :
    ∀ (rem c : Nat) (x : ℚ), colStep gaps c x = slotX x0 aw gaps c →
      buildColsFrom i r gaps aw al fh y floors ps c rem x =
        (List.range rem).flatMap (fun j =>
          buildFloors i r (c + j) floors (slotX x0 aw gaps (c + j)) y aw al fh ps) := by
  intro rem
  induction rem with
  | zero => intro c x h; simp [buildColsFrom]
  | succ rem ih =>
    intro c x h
    have hstep : colStep gaps (c + 1) (colStep gaps c x + aw) = slotX x0 aw gaps (c + 1) := by
      rw [colStep_succ, slotX_succ, h]
    rw [show buildColsFrom i r gaps aw al fh y floors ps c (rem + 1) x =
        buildFloors i r c floors (colStep gaps c x) y aw al fh ps
          ++ buildColsFrom i r gaps aw al fh y floors ps (c + 1) rem (colStep gaps c x + aw)
      from rfl]
    rw [ih (c + 1) _ hstep, h, List.range_succ_eq_map]
    rw [List.flatMap_cons, List.flatMap_map]
    simp only [Nat.add_zero, Nat.succ_eq_add_one, Nat.add_assoc, Nat.add_comm 1]

lemma wsAisles_eq (L H ww bg : ℚ) (i : Nat) (b : WorkstationConfig) :
    wsAisles L H ww bg i b =
      (List.range b.aisle_config.num_rows.toNat).flatMap (fun r =>
        (List.range b.aisle_config.num_aisles.toNat).flatMap (fun c =>
          (List.range b.aisle_config.num_floors.toNat).map (fun f =>
            mkAisleEntry i r c f
              (slotX ((i : ℚ) * (ww + bg) + resolvedGl b.aisle_config)
                (aisleW ww b.aisle_config) (customGaps b.aisle_config) c)
              (resolvedGf b.aisle_config + (r : ℚ) * aisleL L b.aisle_config)
              ((f : ℚ) * floorH H b.aisle_config)
              (aisleW ww b.aisle_config) (aisleL L b.aisle_config)
              (floorH H b.aisle_config) b.pallet_configs))) := by
  unfold wsAisles
  congr 1
  funext r
  rw [buildColsFrom_eq i r (customGaps b.aisle_config) (aisleW ww b.aisle_config)
    (aisleL L b.aisle_config) (floorH H b.aisle_config)
    (resolvedGf b.aisle_config + (r : ℚ) * aisleL L b.aisle_config)
    b.aisle_config.num_floors.toNat b.pallet_configs
    ((i : ℚ) * (ww + bg) + resolvedGl b.aisle_config)
    b.aisle_config.num_aisles.toNat 0
    ((i : ℚ) * (ww + bg) + resolvedGl b.aisle_config)
    (by rw [colStep_zero, slotX_zero])]
  simp only [Nat.zero_add, buildFloors]

lemma layout_ws_length {config : WarehouseConfig} {layout : WarehouseLayout}
    (h : create_warehouse_layout config = Except.ok layout) :
    layout.workstations.length = config.workstation_configs.length := by
  obtain ⟨-, -, rfl⟩ := create_ok_iff.mp h
  show (wsOutputs _ _ _ _ 0 _).length = _
  rw [wsOutputs_length]

lemma layout_ws_get {config : WarehouseConfig} {layout : WarehouseLayout}
    (h : create_warehouse_layout config = Except.ok layout)
    (j : Nat) (hjl : j < layout.workstations.length)
    (hj : j < config.workstation_configs.length) :
    layout.workstations.get ⟨j, hjl⟩ =
      wsOutput (resolvedL config) (resolvedH config) (workstationW config) (resolvedBg config) j
        (config.workstation_configs.get ⟨j, hj⟩) := by
  obtain ⟨-, -, rfl⟩ := create_ok_iff.mp h
  have h2 := wsOutputs_get (resolvedL config) (resolvedH config) (workstationW config)
    (resolvedBg config) config.workstation_configs 0 j hj hjl
  simpa using h2

lemma create_ok_validTop {config : WarehouseConfig} {layout : WarehouseLayout}
    (h : create_warehouse_layout config = Except.ok layout) : validTop config :=
  (create_ok_iff.mp h).1

lemma create_ok_validWs {config : WarehouseConfig} {layout : WarehouseLayout}
    (h : create_warehouse_layout config = Except.ok layout) :
    ∀ b ∈ config.workstation_configs,
      validWs (resolvedL config) (resolvedH config) (workstationW config) b :=
  (create_ok_iff.mp h).2.1

lemma workstationW_eq (config : WarehouseConfig) (h : 0 < config.num_workstations) :
    workstationW config =
      (resolvedW config - resolvedBg config * ((config.num_workstations : ℚ) - 1)) /
        (config.num_workstations : ℚ) := by
  unfold workstationW totalGaps
  rw [if_pos h]
  rcases lt_or_le 1 config.num_workstations with h2 | h2
  · rw [if_pos h2]
  · have h3 : config.num_workstations = 1 := le_antisymm h2 h
    rw [if_neg (by omega), h3]
    norm_num

lemma to_cm_num_cm (q : ℚ) : to_cm (some (PyVal.num q)) "cm" = q := by
  have h : (conversion_factors (strLower "cm")).getD 1 = 1 := rfl
  simp [to_cm, pyFloat, h]

/-- A minimal aisle configuration used by the concrete example
configurations: zero wall gaps, one row, one floor, one aisle. -/
def emptyAisleCfg : AisleConfig :=
  { gap_front := some (PyVal.num 0), gap_back := some (PyVal.num 0)
    gap_left := some (PyVal.num 0), gap_right := some (PyVal.num 0)
    wall_gap_unit := "cm", num_rows := 1, num_floors := 1, num_aisles := 1
    custom_gaps := [] }

/-- A workstation with the minimal aisle configuration and no pallets. -/
def simpleWs : WorkstationConfig :=
  { aisle_config := emptyAisleCfg, pallet_configs := [] }

/-- The scenario of the spec: warehouse 1000 x 500 x 300 cm, 2 workstations,
gap 50 cm. -/
def sampleConfig : WarehouseConfig :=
  { warehouse_dimensions :=
      { width := some (PyVal.num 1000), length := some (PyVal.num 500)
        height := some (PyVal.num 300), unit := "cm" }
    num_workstations := 2
    workstation_gap := some (PyVal.num 50)
    workstation_gap_unit := "cm"
    workstation_configs := [simpleWs, simpleWs] }

lemma resolvedW_sample : resolvedW sampleConfig = 1000 := by
  simp [resolvedW, sampleConfig, to_cm_num_cm]

lemma resolvedL_sample : resolvedL sampleConfig = 500 := by
  simp [resolvedL, sampleConfig, to_cm_num_cm]

lemma resolvedH_sample : resolvedH sampleConfig = 300 := by
  simp [resolvedH, sampleConfig, to_cm_num_cm]

lemma resolvedBg_sample : resolvedBg sampleConfig = 50 := by
  simp [resolvedBg, sampleConfig, to_cm_num_cm]

lemma workstationW_sample : workstationW sampleConfig = 475 := by
  rw [workstationW_eq sampleConfig (by norm_num [sampleConfig])]
  rw [resolvedW_sample, resolvedBg_sample]
  norm_num [sampleConfig]

lemma validWs_emptyAisle {L H ww : ℚ} (b : WorkstationConfig)
    (hb : b.aisle_config = emptyAisleCfg)
    (hL : 1 ≤ L) (hH : 10 ≤ H) (hww : 1 ≤ ww) :
    validWs L H ww b := by
  have h0 : resolvedGf emptyAisleCfg = 0 := by
    simp [resolvedGf, emptyAisleCfg, to_cm_num_cm]
  have h1 : resolvedGb emptyAisleCfg = 0 := by
    simp [resolvedGb, emptyAisleCfg, to_cm_num_cm]
  have h2 : resolvedGl emptyAisleCfg = 0 := by
    simp [resolvedGl, emptyAisleCfg, to_cm_num_cm]
  have h3 : resolvedGr emptyAisleCfg = 0 := by
    simp [resolvedGr, emptyAisleCfg, to_cm_num_cm]
  have hcg : customGaps emptyAisleCfg = [] := by simp [customGaps, emptyAisleCfg]
  have htcg : totalCustomGaps emptyAisleCfg = 0 := by simp [totalCustomGaps, hcg]
  unfold validWs
  rw [hb]
  simp only [aisleW, aisleL, floorH, availW, availL]
  rw [h0, h1, h2, h3, htcg, show emptyAisleCfg.num_rows = 1 from rfl,
    show emptyAisleCfg.num_floors = 1 from rfl, show emptyAisleCfg.num_aisles = 1 from rfl]
  norm_num [MIN_RACK_WIDTH_CM, MIN_RACK_LENGTH_CM, MIN_FLOOR_HEIGHT_CM]
  repeat' constructor
  all_goals linarith

lemma totalGaps_sample : totalGaps sampleConfig = 50 := by
  unfold totalGaps
  rw [if_pos (by norm_num [sampleConfig]), resolvedBg_sample]
  norm_num [sampleConfig]

lemma sample_ok :
    create_warehouse_layout sampleConfig = Except.ok (layoutOutput sampleConfig) := by
  refine create_ok_iff.mpr ⟨?_, ?_, rfl⟩
  · unfold validTop
    rw [resolvedW_sample, resolvedL_sample, resolvedH_sample, resolvedBg_sample,
      workstationW_sample, totalGaps_sample]
    norm_num [sampleConfig]
  · intro b hb
    have hb2 : b = simpleWs := by
      rcases List.mem_cons.mp hb with h | h
      · exact h
      · simpa using h
    rw [hb2, resolvedL_sample, resolvedH_sample, workstationW_sample]
    exact validWs_emptyAisle simpleWs rfl (by norm_num) (by norm_num) (by norm_num)

/-- C1: for every configuration passing validation with N partitions, gap g
and warehouse width W (cm), every emitted partition k (0-based) has width
`(W - g*(N-1)) / N` and starts at `x = k * (pw + g)`. -/
theorem partition_width_and_start (config : WarehouseConfig) (layout : WarehouseLayout)
    (h : create_warehouse_layout config = Except.ok layout)
    (k : Nat) (hk : k < layout.workstations.length) :
    (layout.workstations.get ⟨k, hk⟩).dimensions.width =
        (resolvedW config - resolvedBg config * ((config.num_workstations : ℚ) - 1)) /
          (config.num_workstations : ℚ) ∧
      (layout.workstations.get ⟨k, hk⟩).position.x =
        (k : ℚ) *
          ((resolvedW config - resolvedBg config * ((config.num_workstations : ℚ) - 1)) /
              (config.num_workstations : ℚ) +
            resolvedBg config) := by
  have hk' : k < config.workstation_configs.length := by
    rw [← layout_ws_length h]; exact hk
  have hN : 0 < config.num_workstations := by
    have h2 := (create_ok_validTop h).2.1
    omega
  rw [layout_ws_get h k hk hk', ← workstationW_eq config hN]
  exact ⟨rfl, rfl⟩

lemma sample_ws_len : (layoutOutput sampleConfig).workstations.length = 2 := by
  show (wsOutputs _ _ _ _ 0 _).length = 2
  rw [wsOutputs_length]
  rfl

lemma sample_idx0 : 0 < (layoutOutput sampleConfig).workstations.length := by
  rw [sample_ws_len]; omega

lemma sample_idx1 : 1 < (layoutOutput sampleConfig).workstations.length := by
  rw [sample_ws_len]; omega

/-- C1 witness: the spec scenario, 1000 cm wide, 2 partitions, 50 cm gap:
the second partition is 475 cm wide and starts at x = 525. -/
theorem partition_width_and_start_witness :
    ((layoutOutput sampleConfig).workstations.get ⟨1, sample_idx1⟩).dimensions.width = 475 ∧
      ((layoutOutput sampleConfig).workstations.get ⟨1, sample_idx1⟩).position.x = 525 := by
  obtain ⟨h1, h2⟩ := partition_width_and_start sampleConfig (layoutOutput sampleConfig)
    sample_ok 1 sample_idx1
  constructor
  · rw [h1, resolvedW_sample, resolvedBg_sample]
    norm_num [sampleConfig]
  · rw [h2, resolvedW_sample, resolvedBg_sample]
    norm_num [sampleConfig]

lemma wsOutput_aisles (L H ww bg : ℚ) (i : Nat) (b : WorkstationConfig) :
    (wsOutput L H ww bg i b).aisles = wsAisles L H ww bg i b := rfl

lemma wsAisles_mem {L H ww bg : ℚ} {i : Nat} {b : WorkstationConfig} {e : AisleEntry}
    (he : e ∈ wsAisles L H ww bg i b) :
    ∃ r c f : Nat, r < b.aisle_config.num_rows.toNat ∧
      c < b.aisle_config.num_aisles.toNat ∧ f < b.aisle_config.num_floors.toNat ∧
      e = mkAisleEntry i r c f
            (slotX ((i : ℚ) * (ww + bg) + resolvedGl b.aisle_config)
              (aisleW ww b.aisle_config) (customGaps b.aisle_config) c)
            (resolvedGf b.aisle_config + (r : ℚ) * aisleL L b.aisle_config)
            ((f : ℚ) * floorH H b.aisle_config)
            (aisleW ww b.aisle_config) (aisleL L b.aisle_config) (floorH H b.aisle_config)
            b.pallet_configs := by
  rw [wsAisles_eq] at he
  simp only [List.mem_flatMap, List.mem_map, List.mem_range] at he
  obtain ⟨r, hr, c, hc, f, hf, hcf⟩ := he
  exact ⟨r, c, f, hr, hc, hf, hcf.symm⟩

/-- C2: for every configuration passing validation, the X coordinate of the
slot in (0-based) column c is the partition start plus the left wall gap plus
c aisle widths plus the custom gaps inserted before column c; the Y coordinate
of (0-based) row r is `gap_front + r*slot_length`; the Z coordinate of
(0-based) floor f is `f*slot_height`. -/
theorem slot_position_formula (config : WarehouseConfig) (layout : WarehouseLayout)
    (h : create_warehouse_layout config = Except.ok layout)
    (j : Nat) (hjl : j < layout.workstations.length)
    (hj : j < config.workstation_configs.length)
    (e : AisleEntry) (he : e ∈ (layout.workstations.get ⟨j, hjl⟩).aisles) :
    ∃ r c f : Nat,
      e.indices = { floor := (f : Int) + 1, row := (r : Int) + 1, col := (c : Int) + 1 } ∧
      e.position.x =
        workstationStartX config j +
          resolvedGl (config.workstation_configs.get ⟨j, hj⟩).aisle_config +
          (c : ℚ) * aisleW (workstationW config) (config.workstation_configs.get ⟨j, hj⟩).aisle_config +
          ((customGaps (config.workstation_configs.get ⟨j, hj⟩).aisle_config).take c).sum ∧
      e.position.y =
        resolvedGf (config.workstation_configs.get ⟨j, hj⟩).aisle_config +
          (r : ℚ) * aisleL (resolvedL config) (config.workstation_configs.get ⟨j, hj⟩).aisle_config ∧
      e.position.z =
        (f : ℚ) * floorH (resolvedH config) (config.workstation_configs.get ⟨j, hj⟩).aisle_config := by
  rw [layout_ws_get h j hjl hj, wsOutput_aisles] at he
  obtain ⟨r, c, f, hr, hc, hf, rfl⟩ := wsAisles_mem he
  refine ⟨r, c, f, rfl, ?_, rfl, rfl⟩
  show slotX ((j : ℚ) * (workstationW config + resolvedBg config) +
      resolvedGl (config.workstation_configs.get ⟨j, hj⟩).aisle_config)
    (aisleW (workstationW config) (config.workstation_configs.get ⟨j, hj⟩).aisle_config)
    (customGaps (config.workstation_configs.get ⟨j, hj⟩).aisle_config) c = _
  unfold slotX workstationStartX
  ring

lemma sample_cfg_idx0 : 0 < sampleConfig.workstation_configs.length := by
  show 0 < 2
  omega

lemma sample_ws0_aisles_len :
    ((layoutOutput sampleConfig).workstations.get ⟨0, sample_idx0⟩).aisles.length = 1 := rfl

/-- The single slot of the first workstation of the sample configuration. -/
def sampleEntry : AisleEntry :=
  ((layoutOutput sampleConfig).workstations.get ⟨0, sample_idx0⟩).aisles.get
    ⟨0, by rw [sample_ws0_aisles_len]; omega⟩

/-- C2 witness: the position formula instantiated on the sample scenario. -/
theorem slot_position_formula_witness :
    ∃ r c f : Nat,
      sampleEntry.indices = { floor := (f : Int) + 1, row := (r : Int) + 1, col := (c : Int) + 1 } ∧
      sampleEntry.position.x =
        workstationStartX sampleConfig 0 + resolvedGl emptyAisleCfg +
          (c : ℚ) * aisleW (workstationW sampleConfig) emptyAisleCfg +
          ((customGaps emptyAisleCfg).take c).sum ∧
      sampleEntry.position.y =
        resolvedGf emptyAisleCfg + (r : ℚ) * aisleL (resolvedL sampleConfig) emptyAisleCfg ∧
      sampleEntry.position.z = (f : ℚ) * floorH (resolvedH sampleConfig) emptyAisleCfg :=
  slot_position_formula sampleConfig (layoutOutput sampleConfig) sample_ok 0 sample_idx0
    sample_cfg_idx0 sampleEntry (List.get_mem _ _ _)

/-- C5: for every configuration passing validation, each emitted slot carries
exactly the pallets whose declared (floor,row,col) position equals the slot's
index record, in input order; pallets matching no slot appear nowhere and
cause no error. -/
theorem pallet_attachment (config : WarehouseConfig) (layout : WarehouseLayout)
    (h : create_warehouse_layout config = Except.ok layout)
    (j : Nat) (hjl : j < layout.workstations.length)
    (hj : j < config.workstation_configs.length)
    (e : AisleEntry) (he : e ∈ (layout.workstations.get ⟨j, hjl⟩).aisles) :
    e.pallets =
      (((config.workstation_configs.get ⟨j, hj⟩).pallet_configs).filter
        (fun p => p.position.floor == e.indices.floor && p.position.row == e.indices.row
          && p.position.col == e.indices.col)).map palletOut := by
  rw [layout_ws_get h j hjl hj, wsOutput_aisles] at he
  obtain ⟨r, c, f, hr, hc, hf, rfl⟩ := wsAisles_mem he
  rfl

/-- A pallet declared at floor 1, row 1, column 1 (matches the only slot). -/
def palletA : PalletConfig :=
  { type := "euro", color := none, length_cm := some 120, width_cm := some 80
    height_cm := some 15, position := { floor := 1, row := 1, col := 1 } }

/-- A pallet declared at column 99 (matches no slot). -/
def palletB : PalletConfig :=
  { type := "stray", color := some "#FFFFFF", length_cm := none, width_cm := none
    height_cm := none, position := { floor := 1, row := 1, col := 99 } }

/-- A workstation holding one matching and one non-matching pallet. -/
def palletWs : WorkstationConfig :=
  { aisle_config := emptyAisleCfg, pallet_configs := [palletA, palletB] }

/-- A single-workstation configuration with the two pallets above. -/
def palletCfg : WarehouseConfig :=
  { warehouse_dimensions := sampleConfig.warehouse_dimensions
    num_workstations := 1
    workstation_gap := some (PyVal.num 0)
    workstation_gap_unit := "cm"
    workstation_configs := [palletWs] }

lemma resolvedW_pallet : resolvedW palletCfg = 1000 := resolvedW_sample

lemma resolvedL_pallet : resolvedL palletCfg = 500 := resolvedL_sample

lemma resolvedH_pallet : resolvedH palletCfg = 300 := resolvedH_sample

lemma resolvedBg_pallet : resolvedBg palletCfg = 0 := by
  simp [resolvedBg, palletCfg, to_cm_num_cm]

lemma totalGaps_pallet : totalGaps palletCfg = 0 := by
  unfold totalGaps
  rw [if_neg (by norm_num [palletCfg])]

lemma workstationW_pallet : workstationW palletCfg = 1000 := by
  unfold workstationW
  rw [if_pos (by norm_num [palletCfg]), totalGaps_pallet, resolvedW_pallet]
  norm_num [palletCfg]

lemma pallet_ok :
    create_warehouse_layout palletCfg = Except.ok (layoutOutput palletCfg) := by
  refine create_ok_iff.mpr ⟨?_, ?_, rfl⟩
  · unfold validTop
    rw [resolvedW_pallet, resolvedL_pallet, resolvedH_pallet, resolvedBg_pallet,
      totalGaps_pallet, workstationW_pallet]
    norm_num [palletCfg]
  · intro b hb
    have hb2 : b = palletWs := by simpa [palletCfg] using hb
    rw [hb2, resolvedL_pallet, resolvedH_pallet, workstationW_pallet]
    exact validWs_emptyAisle palletWs rfl (by norm_num) (by norm_num) (by norm_num)

lemma pallet_idx0 : 0 < (layoutOutput palletCfg).workstations.length := by
  show 0 < (wsOutputs _ _ _ _ 0 _).length
  rw [wsOutputs_length]
  show 0 < 1
  omega

lemma pallet_cfg_idx0 : 0 < palletCfg.workstation_configs.length := by
  show 0 < 1
  omega

lemma pallet_ws0_aisles_len :
    ((layoutOutput palletCfg).workstations.get ⟨0, pallet_idx0⟩).aisles.length = 1 := rfl

/-- The single slot of the pallet example configuration. -/
def palletEntry : AisleEntry :=
  ((layoutOutput palletCfg).workstations.get ⟨0, pallet_idx0⟩).aisles.get
    ⟨0, by rw [pallet_ws0_aisles_len]; omega⟩

/-- C5 witness: in the pallet example, the slot carries exactly the matching
pallet and the stray pallet is silently dropped. -/
theorem pallet_attachment_witness :
    palletEntry.pallets =
      ((palletWs.pallet_configs).filter
        (fun p => p.position.floor == palletEntry.indices.floor
          && p.position.row == palletEntry.indices.row
          && p.position.col == palletEntry.indices.col)).map palletOut ∧
      palletEntry.pallets = [palletOut palletA] := by
  constructor
  · exact pallet_attachment palletCfg (layoutOutput palletCfg) pallet_ok 0 pallet_idx0
      pallet_cfg_idx0 palletEntry (List.get_mem _ _ _)
  · rfl

/-- C10: on success the layout has exactly one partition per entry of the
workstation-config list, in list order; the configured count does not
constrain the number of emitted partitions. -/
theorem one_partition_per_config (config : WarehouseConfig) (layout : WarehouseLayout)
    (h : create_warehouse_layout config = Except.ok layout) :
    layout.workstations.length = config.workstation_configs.length ∧
      ∀ (k : Nat) (hk : k < layout.workstations.length),
        (layout.workstations.get ⟨k, hk⟩).workstation_index = k := by
  refine ⟨layout_ws_length h, ?_⟩
  intro k hk
  have hk' : k < config.workstation_configs.length := by
    rw [← layout_ws_length h]; exact hk
  rw [layout_ws_get h k hk hk']
  rfl

/-- The sample configuration with three workstation entries but a configured
count of 2. -/
def mismatchConfig : WarehouseConfig :=
  { warehouse_dimensions := sampleConfig.warehouse_dimensions
    num_workstations := 2
    workstation_gap := some (PyVal.num 50)
    workstation_gap_unit := "cm"
    workstation_configs := [simpleWs, simpleWs, simpleWs] }

lemma mismatch_ok :
    create_warehouse_layout mismatchConfig = Except.ok (layoutOutput mismatchConfig) := by
  refine create_ok_iff.mpr ⟨?_, ?_, rfl⟩
  · unfold validTop
    rw [show resolvedW mismatchConfig = 1000 from resolvedW_sample,
      show resolvedL mismatchConfig = 500 from resolvedL_sample,
      show resolvedH mismatchConfig = 300 from resolvedH_sample,
      show resolvedBg mismatchConfig = 50 from resolvedBg_sample,
      show totalGaps mismatchConfig = 50 from totalGaps_sample,
      show workstationW mismatchConfig = 475 from workstationW_sample]
    norm_num [mismatchConfig]
  · intro b hb
    have hb2 : b = simpleWs := by simpa [mismatchConfig] using hb
    rw [hb2, show resolvedL mismatchConfig = 500 from resolvedL_sample,
      show resolvedH mismatchConfig = 300 from resolvedH_sample,
      show workstationW mismatchConfig = 475 from workstationW_sample]
    exact validWs_emptyAisle simpleWs rfl (by norm_num) (by norm_num) (by norm_num)

/-- C10 witness: with 3 config entries and a configured count of 2 the
computation still succeeds and yields 3 partitions. -/
theorem one_partition_per_config_witness :
    (layoutOutput mismatchConfig).workstations.length =
        mismatchConfig.workstation_configs.length ∧
      mismatchConfig.workstation_configs.length = 3 ∧
      mismatchConfig.num_workstations = 2 :=
  ⟨(one_partition_per_config mismatchConfig (layoutOutput mismatchConfig) mismatch_ok).1,
    rfl, rfl⟩

lemma wsOutputs_widths (L H ww bg : ℚ) :
    ∀ (i : Nat) (bs : List WorkstationConfig),
      (wsOutputs L H ww bg i bs).map (fun w => w.dimensions.width) =
        List.replicate bs.length ww
  | _, [] => rfl
  | i, b :: bs => by
    simp [wsOutputs, wsOutput, wsOutputs_widths L H ww bg (i + 1) bs, List.replicate_succ]

/-- C6: when the workstation-config list has exactly the configured number of
entries, the emitted partition widths plus the N-1 inter-partition gaps sum
exactly to the warehouse width. -/
theorem partition_widths_sum (config : WarehouseConfig) (layout : WarehouseLayout)
    (h : create_warehouse_layout config = Except.ok layout)
    (hn : (config.workstation_configs.length : Int) = config.num_workstations) :
    (layout.workstations.map (fun w => w.dimensions.width)).sum +
        resolvedBg config * ((config.num_workstations : ℚ) - 1) = resolvedW config := by
  have hN : 0 < config.num_workstations := by
    have h2 := (create_ok_validTop h).2.1
    omega
  have hcast : ((config.workstation_configs.length : ℚ)) = ((config.num_workstations : ℚ)) := by
    exact_mod_cast congrArg (fun z : Int => (z : ℚ)) hn
  have hNne : ((config.num_workstations : ℚ)) ≠ 0 := by
    have h3 : (0 : ℚ) < (config.num_workstations : ℚ) := by exact_mod_cast hN
    linarith
  obtain ⟨-, -, rfl⟩ := create_ok_iff.mp h
  show ((wsOutputs _ _ _ _ 0 _).map _).sum + _ = _
  rw [wsOutputs_widths, List.sum_replicate, nsmul_eq_mul, hcast,
    workstationW_eq config hN]
  field_simp

/-- C6 witness: the sum identity instantiated on the sample scenario. -/
theorem partition_widths_sum_witness :
    ((layoutOutput sampleConfig).workstations.map (fun w => w.dimensions.width)).sum +
        resolvedBg sampleConfig * ((sampleConfig.num_workstations : ℚ) - 1) =
      resolvedW sampleConfig :=
  partition_widths_sum sampleConfig (layoutOutput sampleConfig) sample_ok rfl

lemma create_error_iff_not_valid (config : WarehouseConfig) :
    (∃ e, create_warehouse_layout config = Except.error e) ↔
      ¬(validTop config ∧
        ∀ b ∈ config.workstation_configs,
          validWs (resolvedL config) (resolvedH config) (workstationW config) b) := by
  constructor
  · rintro ⟨e, he⟩ ⟨hv1, hv2⟩
    have h2 : create_warehouse_layout config = Except.ok (layoutOutput config) :=
      create_ok_iff.mpr ⟨hv1, hv2, rfl⟩
    rw [he] at h2
    exact absurd h2 (by simp)
  · intro hnot
    cases hc : create_warehouse_layout config with
    | error e => exact ⟨e, rfl⟩
    | ok l =>
      obtain ⟨hv1, hv2, -⟩ := create_ok_iff.mp hc
      exact absurd ⟨hv1, hv2⟩ hnot

/-- C3: the computation raises a validation error (returning no layout)
exactly when a warehouse dimension resolves non-positive, the partition count
is non-positive, the partition gap is negative, the total inter-partition gap
reaches the width, the computed partition width is non-positive, or some
workstation has wall gaps consuming its width or length, a non-positive
row/floor/aisle count, custom gaps reaching the available width, or a slot
dimension below its minimum; every other configuration yields a layout. -/
theorem validation_error_characterization (config : WarehouseConfig) :
    ((∃ e, create_warehouse_layout config = Except.error e) ↔
      (resolvedW config ≤ 0 ∨ resolvedL config ≤ 0 ∨ resolvedH config ≤ 0 ∨
        config.num_workstations ≤ 0 ∨ resolvedBg config < 0 ∨
        resolvedW config ≤ totalGaps config ∨ workstationW config ≤ 0 ∨
        ∃ b ∈ config.workstation_configs,
          (availW (workstationW config) b.aisle_config ≤ 0 ∨
            availL (resolvedL config) b.aisle_config ≤ 0 ∨
            b.aisle_config.num_rows ≤ 0 ∨ b.aisle_config.num_floors ≤ 0 ∨
            b.aisle_config.num_aisles ≤ 0 ∨
            availW (workstationW config) b.aisle_config ≤ totalCustomGaps b.aisle_config ∨
            aisleW (workstationW config) b.aisle_config < MIN_RACK_WIDTH_CM ∨
            aisleL (resolvedL config) b.aisle_config < MIN_RACK_LENGTH_CM ∨
            floorH (resolvedH config) b.aisle_config < MIN_FLOOR_HEIGHT_CM))) ∧
      ((∃ l, create_warehouse_layout config = Except.ok l) ↔
        ¬(∃ e, create_warehouse_layout config = Except.error e)) := by
  constructor
  · rw [create_error_iff_not_valid]
    constructor
    · intro hne
      by_contra hnd
      push_neg at hnd
      obtain ⟨g1, g2, g3, g4, g5, g6, g7, hrest⟩ := hnd
      refine hne ⟨⟨?_, not_le.mpr (by omega), not_lt.mpr g5, not_le.mpr g6, not_le.mpr g7⟩, ?_⟩
      · rintro (hx | hx | hx)
        · exact absurd hx (not_le.mpr g1)
        · exact absurd hx (not_le.mpr g2)
        · exact absurd hx (not_le.mpr g3)
      · intro b hb
        obtain ⟨m1, m2, m3, m4, m5, m6, m7, m8, m9⟩ := hrest b hb
        exact ⟨not_le.mpr m1, not_le.mpr m2, by omega, by omega, by omega,
          not_le.mpr m6, not_lt.mpr m7, not_lt.mpr m8, not_lt.mpr m9⟩
    · intro hd hvh
      obtain ⟨⟨n1, n2, n3, n4, n5⟩, hw⟩ := hvh
      rcases hd with hx | hx | hx | hx | hx | hx | hx | ⟨b, hb, hbad⟩
      · exact n1 (Or.inl hx)
      · exact n1 (Or.inr (Or.inl hx))
      · exact n1 (Or.inr (Or.inr hx))
      · exact n2 hx
      · exact n3 hx
      · exact n4 hx
      · exact n5 hx
      · obtain ⟨m1, m2, m3, m4, m5, m6, m7, m8, m9⟩ := hw b hb
        rcases hbad with hx | hx | hx | hx | hx | hx | hx | hx | hx
        · exact m1 hx
        · exact m2 hx
        · exact m3 hx
        · exact m4 hx
        · exact m5 hx
        · exact m6 hx
        · exact m7 hx
        · exact m8 hx
        · exact m9 hx
  · cases hc : create_warehouse_layout config with
    | error e =>
      constructor
      · rintro ⟨l, hl⟩; exact absurd hl (by simp)
      · intro hne; exact absurd ⟨e, rfl⟩ hne
    | ok l =>
      constructor
      · rintro - ⟨e, hee⟩; exact absurd hee (by simp)
      · intro h2; exact ⟨l, rfl⟩

lemma parse_five : parsePyFloat "5" = some 5 := rfl

lemma parse_abc : parsePyFloat "abc" = none := rfl

lemma parse_exp : parsePyFloat "1e5" = some ((1 : ℚ) * (10 : ℚ) ^ (5 : Nat)) := rfl

lemma parse_space : parsePyFloat " 5" = some 5 := rfl

lemma parse_sep : parsePyFloat "1_0" = some 10 := rfl

lemma parse_bad_sep : parsePyFloat "1__0" = none := rfl

lemma parse_neg_exp :
    parsePyFloat "-2.5e-1" =
      some (-(((2 : ℚ) + (5 : ℚ) / (10 : ℚ) ^ (1 : Nat)) / (10 : ℚ) ^ (1 : Nat))) := rfl

/-- C4: `to_cm` returns 0 for absent values and for strings on which
`float()` raises `ValueError`, and otherwise multiplies the parsed value by
the factor from the fixed table, looked up case-insensitively, with an
unrecognized unit yielding factor 1; it never raises.  Strings that `float()`
maps to IEEE non-finite values (`inf`, `infinity`, `nan`) lie outside the
rational embedding and are excluded via `isPyNonFiniteStr`.  The examples pin
every table entry, the spec's four test cases, and `float()` features beyond
plain decimals: exponent notation, surrounding whitespace, underscore
separators, sign with fraction and negative exponent, and a malformed
separator degrading to 0. -/
theorem to_cm_spec :
    (∀ u : String, to_cm none u = 0) ∧
    (∀ (s u : String), parsePyFloat s = none → isPyNonFiniteStr s = false →
      to_cm (some (PyVal.str s)) u = 0) ∧
    (∀ (v : PyVal) (u : String) (q : ℚ), pyFloat v = some q →
      to_cm (some v) u = q * ((conversion_factors (strLower u)).getD 1)) ∧
    to_cm (some (PyVal.num 1)) "M" = 100 ∧
    to_cm (some (PyVal.num 1)) "km" = 100000 ∧
    to_cm (some (PyVal.num 1)) "In" = 254 / 100 ∧
    to_cm (some (PyVal.num 1)) "ft" = 3048 / 100 ∧
    to_cm (some (PyVal.num 1)) "yd" = 9144 / 100 ∧
    to_cm (some (PyVal.num 1)) "mm" = 1 / 10 ∧
    to_cm none "cm" = 0 ∧
    to_cm (some (PyVal.str "5")) "m" = 500 ∧
    to_cm (some (PyVal.str "abc")) "cm" = 0 ∧
    to_cm (some (PyVal.num 3)) "UNKNOWN" = 3 ∧
    to_cm (some (PyVal.str "1e5")) "cm" = 100000 ∧
    to_cm (some (PyVal.str " 5")) "m" = 500 ∧
    to_cm (some (PyVal.str "1_0")) "cm" = 10 ∧
    to_cm (some (PyVal.str "-2.5e-1")) "cm" = -(25 / 100) ∧
    to_cm (some (PyVal.str "1__0")) "cm" = 0 ∧
    isPyNonFiniteStr " -Infinity " = true ∧
    isPyNonFiniteStr "1e5" = false := by
  refine ⟨fun u => rfl, ?_, ?_, ?_, ?_, ?_, ?_, ?_, ?_, rfl, ?_, ?_, ?_,
    ?_, ?_, ?_, ?_, ?_, rfl, rfl⟩
  · intro s u hp hnf
    simp [to_cm, pyFloat, hp]
  · intro v u q hp
    simp [to_cm, hp]
  · norm_num [to_cm, pyFloat,
      show (conversion_factors (strLower "M")).getD 1 = 100 from rfl]
  · norm_num [to_cm, pyFloat,
      show (conversion_factors (strLower "km")).getD 1 = 100000 from rfl]
  · norm_num [to_cm, pyFloat,
      show (conversion_factors (strLower "In")).getD 1 = 254 / 100 from rfl]
  · norm_num [to_cm, pyFloat,
      show (conversion_factors (strLower "ft")).getD 1 = 3048 / 100 from rfl]
  · norm_num [to_cm, pyFloat,
      show (conversion_factors (strLower "yd")).getD 1 = 9144 / 100 from rfl]
  · norm_num [to_cm, pyFloat,
      show (conversion_factors (strLower "mm")).getD 1 = 1 / 10 from rfl]
  · norm_num [to_cm, pyFloat, parse_five,
      show (conversion_factors (strLower "m")).getD 1 = 100 from rfl]
  · simp [to_cm, pyFloat, parse_abc]
  · norm_num [to_cm, pyFloat,
      show (conversion_factors (strLower "UNKNOWN")).getD 1 = 1 from rfl]
  · norm_num [to_cm, pyFloat, parse_exp,
      show (conversion_factors (strLower "cm")).getD 1 = 1 from rfl]
  · norm_num [to_cm, pyFloat, parse_space,
      show (conversion_factors (strLower "m")).getD 1 = 100 from rfl]
  · norm_num [to_cm, pyFloat, parse_sep,
      show (conversion_factors (strLower "cm")).getD 1 = 1 from rfl]
  · norm_num [to_cm, pyFloat, parse_neg_exp,
      show (conversion_factors (strLower "cm")).getD 1 = 1 from rfl]
  · simp [to_cm, pyFloat, parse_bad_sep]

/-- C4 witness: the unparseable-string clause applied at a concrete input
that is neither a valid literal nor a non-finite token. -/
theorem to_cm_spec_witness : to_cm (some (PyVal.str "abc")) "cm" = 0 :=
  to_cm_spec.2.1 "abc" "cm" rfl rfl

lemma wsAisles_indices_map (L H ww bg : ℚ) (i : Nat) (b : WorkstationConfig) :
    (wsAisles L H ww bg i b).map (fun e => e.indices) =
      (List.range b.aisle_config.num_rows.toNat).flatMap (fun (r : Nat) =>
        (List.range b.aisle_config.num_aisles.toNat).flatMap (fun (c : Nat) =>
          (List.range b.aisle_config.num_floors.toNat).map (fun (f : Nat) =>
            ({ floor := (f : Int) + 1, row := (r : Int) + 1, col := (c : Int) + 1 } :
              SlotIndices)))) := by
  rw [wsAisles_eq, List.map_flatMap]
  congr 1
  funext r
  rw [List.map_flatMap]
  congr 1
  funext c
  rw [List.map_map]
  rfl

lemma indexGrid_nodup (rows cols floors : Nat) :
    ((List.range rows).flatMap (fun (r : Nat) =>
      (List.range cols).flatMap (fun (c : Nat) =>
        (List.range floors).map (fun (f : Nat) =>
          ({ floor := (f : Int) + 1, row := (r : Int) + 1, col := (c : Int) + 1 } :
            SlotIndices))))).Nodup := by
  rw [List.nodup_flatMap]
  constructor
  · intro r hr
    rw [List.nodup_flatMap]
    constructor
    · intro c hc
      refine List.Nodup.map ?_ (List.nodup_range floors)
      intro f1 f2 hf
      have hf2 := (SlotIndices.mk.injEq _ _ _ _ _ _).mp hf
      omega
    · refine (List.pairwise_lt_range cols).imp ?_
      intro c1 c2 hlt x hx1 hx2
      simp only [List.mem_map, List.mem_range] at hx1 hx2
      obtain ⟨f1, hf1, hfx1⟩ := hx1
      obtain ⟨f2, hf2, hfx2⟩ := hx2
      rw [← hfx2] at hfx1
      have := (SlotIndices.mk.injEq _ _ _ _ _ _).mp hfx1
      omega
  · refine (List.pairwise_lt_range rows).imp ?_
    intro r1 r2 hlt x hx1 hx2
    simp only [List.mem_flatMap, List.mem_map, List.mem_range] at hx1 hx2
    obtain ⟨c1, hc1, f1, hf1, hfx1⟩ := hx1
    obtain ⟨c2, hc2, f2, hf2, hfx2⟩ := hx2
    rw [← hfx2] at hfx1
    have := (SlotIndices.mk.injEq _ _ _ _ _ _).mp hfx1
    omega

lemma indexGrid_mem (rows cols floors : Nat) (idx : SlotIndices) :
    idx ∈ (List.range rows).flatMap (fun (r : Nat) =>
        (List.range cols).flatMap (fun (c : Nat) =>
          (List.range floors).map (fun (f : Nat) =>
            ({ floor := (f : Int) + 1, row := (r : Int) + 1, col := (c : Int) + 1 } :
              SlotIndices)))) ↔
      (1 ≤ idx.row ∧ idx.row ≤ (rows : Int) ∧ 1 ≤ idx.floor ∧ idx.floor ≤ (floors : Int) ∧
        1 ≤ idx.col ∧ idx.col ≤ (cols : Int)) := by
  simp only [List.mem_flatMap, List.mem_map, List.mem_range]
  constructor
  · rintro ⟨r, hr, c, hc, f, hf, hfx⟩
    rw [← hfx]
    dsimp only
    omega
  · rintro ⟨h1, h2, h3, h4, h5, h6⟩
    refine ⟨(idx.row - 1).toNat, by omega, (idx.col - 1).toNat, by omega,
      (idx.floor - 1).toNat, by omega, ?_⟩
    obtain ⟨fl, ro, co⟩ := idx
    dsimp only at h1 h2 h3 h4 h5 h6 ⊢
    simp only [SlotIndices.mk.injEq]
    omega

/-- C8: for every configuration passing validation and every partition, the
index records of its slots are exactly the product of 1..rows, 1..floors and
1..lateral-count, each combination occurring exactly once. -/
theorem slot_indices_complete (config : WarehouseConfig) (layout : WarehouseLayout)
    (h : create_warehouse_layout config = Except.ok layout)
    (j : Nat) (hjl : j < layout.workstations.length)
    (hj : j < config.workstation_configs.length) :
    ((layout.workstations.get ⟨j, hjl⟩).aisles.map (fun e => e.indices)).Nodup ∧
      ∀ idx : SlotIndices,
        idx ∈ (layout.workstations.get ⟨j, hjl⟩).aisles.map (fun e => e.indices) ↔
          (1 ≤ idx.row ∧
            idx.row ≤ (config.workstation_configs.get ⟨j, hj⟩).aisle_config.num_rows ∧
            1 ≤ idx.floor ∧
            idx.floor ≤ (config.workstation_configs.get ⟨j, hj⟩).aisle_config.num_floors ∧
            1 ≤ idx.col ∧
            idx.col ≤ (config.workstation_configs.get ⟨j, hj⟩).aisle_config.num_aisles) := by
  have hv := create_ok_validWs h _ (List.get_mem config.workstation_configs j hj)
  obtain ⟨-, -, m3, m4, m5, -, -, -, -⟩ := hv
  rw [layout_ws_get h j hjl hj, wsOutput_aisles, wsAisles_indices_map]
  refine ⟨indexGrid_nodup _ _ _, ?_⟩
  intro idx
  rw [indexGrid_mem]
  rw [Int.toNat_of_nonneg (by omega : (0 : Int) ≤ (config.workstation_configs.get ⟨j, hj⟩).aisle_config.num_rows),
    Int.toNat_of_nonneg (by omega : (0 : Int) ≤ (config.workstation_configs.get ⟨j, hj⟩).aisle_config.num_floors),
    Int.toNat_of_nonneg (by omega : (0 : Int) ≤ (config.workstation_configs.get ⟨j, hj⟩).aisle_config.num_aisles)]

/-- C8 witness: the index-grid property instantiated on the sample scenario. -/
theorem slot_indices_complete_witness :
    (((layoutOutput sampleConfig).workstations.get ⟨0, sample_idx0⟩).aisles.map
        (fun e => e.indices)).Nodup ∧
      ∀ idx : SlotIndices,
        idx ∈ ((layoutOutput sampleConfig).workstations.get ⟨0, sample_idx0⟩).aisles.map
            (fun e => e.indices) ↔
          (1 ≤ idx.row ∧ idx.row ≤ emptyAisleCfg.num_rows ∧
            1 ≤ idx.floor ∧ idx.floor ≤ emptyAisleCfg.num_floors ∧
            1 ≤ idx.col ∧ idx.col ≤ emptyAisleCfg.num_aisles) :=
  slot_indices_complete sampleConfig (layoutOutput sampleConfig) sample_ok 0 sample_idx0
    sample_cfg_idx0

lemma countP_range_int (n : Nat) (k : Int) :
    (List.range n).countP (fun (m : Nat) => ((m : Int) + 1 == k)) =
      if 1 ≤ k ∧ k ≤ (n : Int) then 1 else 0 := by
  induction n with
  | zero =>
    rw [List.range_zero, List.countP_nil, if_neg]
    omega
  | succ n ih =>
    rw [List.range_succ, List.countP_append, ih]
    have hsing : List.countP (fun (m : Nat) => ((m : Int) + 1 == k)) [n] =
        if (n : Int) + 1 = k then 1 else 0 := by
      rw [show ([n] : List Nat) = n :: [] from rfl, List.countP_cons, List.countP_nil]
      simp
    rw [hsing]
    by_cases hk : ((n : Int) + 1 = k)
    · rw [if_pos hk, if_neg (by omega), if_pos (by omega)]
    · rw [if_neg hk]
      by_cases hk2 : (1 ≤ k ∧ k ≤ (n : Int))
      · rw [if_pos hk2, if_pos (by omega)]
      · rw [if_neg hk2, if_neg (by omega)]

lemma sum_range_ite (n : Nat) (k : Int) (v : Nat) (h1 : 1 ≤ k) (h2 : k ≤ (n : Int)) :
    ((List.range n).map (fun (m : Nat) => if (m : Int) + 1 = k then v else 0)).sum = v := by
  induction n with
  | zero =>
    exfalso
    omega
  | succ n ih =>
    rw [List.range_succ, List.map_append, List.sum_append]
    by_cases hk : ((n : Int) + 1 = k)
    · have hz : ((List.range n).map (fun (m : Nat) => if (m : Int) + 1 = k then v else 0)) =
          (List.range n).map (fun _ => 0) := by
        apply List.map_congr_left
        intro a ha
        have ha2 := List.mem_range.mp ha
        rw [if_neg (by omega)]
      rw [hz]
      simp [hk]
    · have h2' : k ≤ (n : Int) := by omega
      rw [ih h2']
      simp [hk]

lemma countP_grid (rows cols floors : Nat) (mk : Nat → Nat → Nat → AisleEntry)
    (hmk : ∀ (r' c f' : Nat), (mk r' c f').indices =
      { floor := (f' : Int) + 1, row := (r' : Int) + 1, col := (c : Int) + 1 })
    (r f : Int) (hr1 : 1 ≤ r) (hr2 : r ≤ (rows : Int))
    (hf1 : 1 ≤ f) (hf2 : f ≤ (floors : Int)) :
    ((List.range rows).flatMap (fun (r' : Nat) =>
      (List.range cols).flatMap (fun (c : Nat) =>
        (List.range floors).map (fun (f' : Nat) => mk r' c f')))).countP
      (fun e => e.indices.row == r && e.indices.floor == f) = cols := by
  rw [List.countP_flatMap]
  have h1 : ∀ r' ∈ List.range rows,
      (List.countP (fun e => e.indices.row == r && e.indices.floor == f) ∘ fun (r' : Nat) =>
        (List.range cols).flatMap (fun (c : Nat) =>
          (List.range floors).map (fun (f' : Nat) => mk r' c f'))) r' =
      (fun (m : Nat) => if (m : Int) + 1 = r then cols else 0) r' := by
    intro r' hr'
    show List.countP _ ((List.range cols).flatMap _) = _
    rw [List.countP_flatMap]
    have h2 : ∀ c ∈ List.range cols,
        (List.countP (fun e => e.indices.row == r && e.indices.floor == f) ∘ fun (c : Nat) =>
          (List.range floors).map (fun (f' : Nat) => mk r' c f')) c =
        (fun (_ : Nat) => if (r' : Int) + 1 = r then 1 else 0) c := by
      intro c hc
      show List.countP _ ((List.range floors).map _) = _
      rw [List.countP_map]
      have h3 : ((fun e => e.indices.row == r && e.indices.floor == f) ∘
          fun (f' : Nat) => mk r' c f') =
          fun (f' : Nat) => (((r' : Int) + 1 == r) && (((f' : Int) + 1 == f))) := by
        funext f'
        simp [Function.comp, hmk]
      rw [h3]
      by_cases hr'' : ((r' : Int) + 1 = r)
      · rw [if_pos hr'']
        have h4 : (fun (f' : Nat) => (((r' : Int) + 1 == r) && ((f' : Int) + 1 == f))) =
            fun (f' : Nat) => ((f' : Int) + 1 == f) := by
          funext f'
          simp [hr'']
        rw [h4, countP_range_int, if_pos ⟨hf1, hf2⟩]
      · rw [if_neg hr'']
        have h4 : (fun (f' : Nat) => (((r' : Int) + 1 == r) && ((f' : Int) + 1 == f))) =
            fun (_ : Nat) => false := by
          funext f'
          simp [hr'']
        rw [h4]
        simp
    rw [List.map_congr_left h2]
    by_cases hr'' : ((r' : Int) + 1 = r)
    · simp [hr'']
    · simp [hr'']
  rw [List.map_congr_left h1]
  exact sum_range_ite rows r cols hr1 hr2

lemma wsAisles_width {L H ww bg : ℚ} {i : Nat} {b : WorkstationConfig} {e : AisleEntry}
    (he : e ∈ wsAisles L H ww bg i b) :
    e.dimensions.width = aisleW ww b.aisle_config := by
  obtain ⟨r, c, f, -, -, -, rfl⟩ := wsAisles_mem he
  rfl

lemma sum_map_const_of (l : List AisleEntry) (v : ℚ)
    (h : ∀ e ∈ l, e.dimensions.width = v) :
    (l.map (fun e => e.dimensions.width)).sum = (l.length : ℚ) * v := by
  induction l with
  | nil => simp
  | cons a t ih =>
    rw [List.map_cons, List.sum_cons, ih (fun e he => h e (List.mem_cons_of_mem _ he)),
      h a (List.mem_cons_self _ _), List.length_cons]
    push_cast
    ring

lemma wsAisles_countP (L H ww bg : ℚ) (i : Nat) (b : WorkstationConfig) (r f : Int)
    (hr1 : 1 ≤ r) (hr2 : r ≤ b.aisle_config.num_rows)
    (hf1 : 1 ≤ f) (hf2 : f ≤ b.aisle_config.num_floors)
    (hrow : 0 ≤ b.aisle_config.num_rows) (hfl : 0 ≤ b.aisle_config.num_floors) :
    (wsAisles L H ww bg i b).countP
        (fun e => e.indices.row == r && e.indices.floor == f) =
      b.aisle_config.num_aisles.toNat := by
  rw [wsAisles_eq]
  refine countP_grid b.aisle_config.num_rows.toNat b.aisle_config.num_aisles.toNat
    b.aisle_config.num_floors.toNat
    (fun r' c f' => mkAisleEntry i r' c f'
      (slotX ((i : ℚ) * (ww + bg) + resolvedGl b.aisle_config)
        (aisleW ww b.aisle_config) (customGaps b.aisle_config) c)
      (resolvedGf b.aisle_config + (r' : ℚ) * aisleL L b.aisle_config)
      ((f' : ℚ) * floorH H b.aisle_config)
      (aisleW ww b.aisle_config) (aisleL L b.aisle_config) (floorH H b.aisle_config)
      b.pallet_configs)
    (fun r' c f' => rfl) r f hr1 ?_ hf1 ?_
  · rw [Int.toNat_of_nonneg hrow]; exact hr2
  · rw [Int.toNat_of_nonneg hfl]; exact hf2

lemma totalCustomGaps_take (rc : AisleConfig) :
    totalCustomGaps rc = ((customGaps rc).take (rc.num_aisles - 1).toNat).sum := by
  unfold totalCustomGaps
  by_cases hg : customGaps rc = []
  · rw [if_neg (by tauto), hg]
    simp
  · by_cases hn : 1 < rc.num_aisles
    · rw [if_pos ⟨hg, hn⟩]
    · rw [if_neg (by tauto)]
      have h3 : (rc.num_aisles - 1).toNat = 0 := by omega
      rw [h3]
      simp

/-- C7: for every partition passing validation and every row and floor, the
widths of the lateral slots of that row and floor plus the effective custom
gaps (the first lateral-count minus one entries) sum exactly to the
partition's available width (partition width minus left and right wall gaps). -/
theorem row_slot_widths_sum (config : WarehouseConfig) (layout : WarehouseLayout)
    (h : create_warehouse_layout config = Except.ok layout)
    (j : Nat) (hjl : j < layout.workstations.length)
    (hj : j < config.workstation_configs.length) (r f : Int)
    (hr1 : 1 ≤ r)
    (hr2 : r ≤ (config.workstation_configs.get ⟨j, hj⟩).aisle_config.num_rows)
    (hf1 : 1 ≤ f)
    (hf2 : f ≤ (config.workstation_configs.get ⟨j, hj⟩).aisle_config.num_floors) :
    ((((layout.workstations.get ⟨j, hjl⟩).aisles.filter
          (fun e => e.indices.row == r && e.indices.floor == f)).map
        (fun e => e.dimensions.width)).sum) +
        ((customGaps (config.workstation_configs.get ⟨j, hj⟩).aisle_config).take
          ((config.workstation_configs.get ⟨j, hj⟩).aisle_config.num_aisles - 1).toNat).sum =
      workstationW config -
        resolvedGl (config.workstation_configs.get ⟨j, hj⟩).aisle_config -
        resolvedGr (config.workstation_configs.get ⟨j, hj⟩).aisle_config := by
  obtain ⟨m1, m2, m3, m4, m5, m6, m7, m8, m9⟩ :=
    create_ok_validWs h _ (List.get_mem config.workstation_configs j hj)
  rw [layout_ws_get h j hjl hj, wsOutput_aisles]
  rw [sum_map_const_of _ _ (fun e he => wsAisles_width (List.mem_of_mem_filter he))]
  rw [← List.countP_eq_length_filter]
  rw [wsAisles_countP (resolvedL config) (resolvedH config) (workstationW config)
    (resolvedBg config) j (config.workstation_configs.get ⟨j, hj⟩) r f hr1 hr2 hf1 hf2
    (by omega) (by omega)]
  rw [← totalCustomGaps_take]
  show _ * aisleW (workstationW config) (config.workstation_configs.get ⟨j, hj⟩).aisle_config
    + _ = _
  unfold aisleW
  rw [if_pos (by omega :
    (0 : Int) < (config.workstation_configs.get ⟨j, hj⟩).aisle_config.num_aisles)]
  have hcast :
      (((config.workstation_configs.get ⟨j, hj⟩).aisle_config.num_aisles.toNat : ℕ) : ℚ) =
      (((config.workstation_configs.get ⟨j, hj⟩).aisle_config.num_aisles : Int) : ℚ) := by
    rw [← Int.cast_natCast, Int.toNat_of_nonneg (by omega)]
  rw [hcast]
  have hNne :
      (((config.workstation_configs.get ⟨j, hj⟩).aisle_config.num_aisles : Int) : ℚ) ≠ 0 := by
    rw [Int.cast_ne_zero]
    omega
  unfold availW
  rw [mul_comm, div_mul_cancel₀ _ hNne]
  ring

/-- C7 witness: the row-width identity instantiated on the sample scenario at
row 1, floor 1. -/
theorem row_slot_widths_sum_witness :
    (((((layoutOutput sampleConfig).workstations.get ⟨0, sample_idx0⟩).aisles.filter
          (fun e => e.indices.row == (1 : Int) && e.indices.floor == (1 : Int))).map
        (fun e => e.dimensions.width)).sum) +
        ((customGaps emptyAisleCfg).take ((emptyAisleCfg.num_aisles - 1).toNat)).sum =
      workstationW sampleConfig - resolvedGl emptyAisleCfg - resolvedGr emptyAisleCfg :=
  row_slot_widths_sum sampleConfig (layoutOutput sampleConfig) sample_ok 0 sample_idx0
    sample_cfg_idx0 1 1 (by decide) (by decide) (by decide) (by decide)

/-- An aisle configuration with a negative front wall gap (the code never
checks wall-gap signs). -/
def negAisleCfg : AisleConfig :=
  { gap_front := some (PyVal.num (-5)), gap_back := some (PyVal.num 0)
    gap_left := some (PyVal.num 0), gap_right := some (PyVal.num 0)
    wall_gap_unit := "cm", num_rows := 1, num_floors := 1, num_aisles := 1
    custom_gaps := [] }

/-- A workstation with the negative front wall gap. -/
def negWs : WorkstationConfig :=
  { aisle_config := negAisleCfg, pallet_configs := [] }

/-- A single-workstation configuration with a negative front wall gap that
passes every validation check. -/
def negGapConfig : WarehouseConfig :=
  { warehouse_dimensions := sampleConfig.warehouse_dimensions
    num_workstations := 1
    workstation_gap := some (PyVal.num 0)
    workstation_gap_unit := "cm"
    workstation_configs := [negWs] }

lemma totalGaps_neg : totalGaps negGapConfig = 0 := by
  unfold totalGaps
  rw [if_neg (by norm_num [negGapConfig])]

lemma workstationW_neg : workstationW negGapConfig = 1000 := by
  unfold workstationW
  rw [if_pos (by norm_num [negGapConfig]), totalGaps_neg,
    show resolvedW negGapConfig = 1000 from resolvedW_sample]
  norm_num [negGapConfig]

lemma validWs_negWs : validWs 500 300 1000 negWs := by
  have h0 : resolvedGf negAisleCfg = -5 := by
    simp [resolvedGf, negAisleCfg, to_cm_num_cm]
  have h1 : resolvedGb negAisleCfg = 0 := by
    simp [resolvedGb, negAisleCfg, to_cm_num_cm]
  have h2 : resolvedGl negAisleCfg = 0 := by
    simp [resolvedGl, negAisleCfg, to_cm_num_cm]
  have h3 : resolvedGr negAisleCfg = 0 := by
    simp [resolvedGr, negAisleCfg, to_cm_num_cm]
  have hcg : customGaps negAisleCfg = [] := by simp [customGaps, negAisleCfg]
  have htcg : totalCustomGaps negAisleCfg = 0 := by simp [totalCustomGaps, hcg]
  unfold validWs
  rw [show negWs.aisle_config = negAisleCfg from rfl]
  simp only [aisleW, aisleL, floorH, availW, availL]
  rw [h0, h1, h2, h3, htcg, show negAisleCfg.num_rows = 1 from rfl,
    show negAisleCfg.num_floors = 1 from rfl, show negAisleCfg.num_aisles = 1 from rfl]
  norm_num [MIN_RACK_WIDTH_CM, MIN_RACK_LENGTH_CM, MIN_FLOOR_HEIGHT_CM]

lemma neg_ok :
    create_warehouse_layout negGapConfig = Except.ok (layoutOutput negGapConfig) := by
  refine create_ok_iff.mpr ⟨?_, ?_, rfl⟩
  · unfold validTop
    rw [show resolvedW negGapConfig = 1000 from resolvedW_sample,
      show resolvedL negGapConfig = 500 from resolvedL_sample,
      show resolvedH negGapConfig = 300 from resolvedH_sample,
      show resolvedBg negGapConfig = 0 from by simp [resolvedBg, negGapConfig, to_cm_num_cm],
      totalGaps_neg, workstationW_neg]
    norm_num [negGapConfig]
  · intro b hb
    have hb2 : b = negWs := by simpa [negGapConfig] using hb
    rw [hb2, show resolvedL negGapConfig = 500 from resolvedL_sample,
      show resolvedH negGapConfig = 300 from resolvedH_sample, workstationW_neg]
    exact validWs_negWs

lemma neg_idx0 : 0 < (layoutOutput negGapConfig).workstations.length := by
  show 0 < (wsOutputs _ _ _ _ 0 _).length
  rw [wsOutputs_length]
  show 0 < 1
  omega

lemma neg_ws0_aisles_len :
    ((layoutOutput negGapConfig).workstations.get ⟨0, neg_idx0⟩).aisles.length = 1 := rfl

/-- The single slot of the negative-gap configuration. -/
def negEntry : AisleEntry :=
  ((layoutOutput negGapConfig).workstations.get ⟨0, neg_idx0⟩).aisles.get
    ⟨0, by rw [neg_ws0_aisles_len]; omega⟩

/-- C9 counterexample: a configuration that passes every validation check
(front wall gap resolved to -5 cm) whose returned layout contains a slot with
a negative Y coordinate, refuting the claim that all positions of a
validation-passing configuration are non-negative. -/
theorem nonneg_positions_counterexample :
    create_warehouse_layout negGapConfig = Except.ok (layoutOutput negGapConfig) ∧
      ∃ w ∈ (layoutOutput negGapConfig).workstations, ∃ e ∈ w.aisles,
        e.position.y < 0 := by
  refine ⟨neg_ok, (layoutOutput negGapConfig).workstations.get ⟨0, neg_idx0⟩,
    List.get_mem _ _ _, negEntry, List.get_mem _ _ _, ?_⟩
  have hy : negEntry.position.y =
      resolvedGf negAisleCfg +
        ((0 : Nat) : ℚ) * aisleL (resolvedL negGapConfig) negAisleCfg := rfl
  rw [hy, show resolvedGf negAisleCfg = -5 from by
    simp [resolvedGf, negAisleCfg, to_cm_num_cm]]
  push_cast
  norm_num

lemma wsOutputs_mem {L H ww bg : ℚ} :
    ∀ (i : Nat) (bs : List WorkstationConfig) (w : WorkstationOut),
      w ∈ wsOutputs L H ww bg i bs →
        ∃ (m : Nat) (b : WorkstationConfig), b ∈ bs ∧ w = wsOutput L H ww bg m b
  | _, [], w => by simp [wsOutputs]
  | i, b :: bs, w => by
    intro hw
    rcases List.mem_cons.mp hw with h1 | h2
    · exact ⟨i, b, List.mem_cons_self _ _, h1⟩
    · obtain ⟨m, b2, hb2, hw2⟩ := wsOutputs_mem (i + 1) bs w h2
      exact ⟨m, b2, List.mem_cons_of_mem _ hb2, hw2⟩

/-- C9 (amended): for every configuration passing validation in which every
resolved left and front wall gap and every resolved custom gap is
non-negative, all position coordinates of every partition and every slot in
the returned layout are non-negative.  (The unamended claim is refuted by
`nonneg_positions_counterexample`: validation never checks gap signs.) -/
theorem nonneg_positions_of_nonneg_gaps (config : WarehouseConfig) (layout : WarehouseLayout)
    (h : create_warehouse_layout config = Except.ok layout)
    (hg : ∀ b ∈ config.workstation_configs,
      0 ≤ resolvedGl b.aisle_config ∧ 0 ≤ resolvedGf b.aisle_config ∧
        ∀ g ∈ customGaps b.aisle_config, 0 ≤ g) :
    ∀ w ∈ layout.workstations,
      (0 ≤ w.position.x ∧ 0 ≤ w.position.y ∧ 0 ≤ w.position.z) ∧
        ∀ e ∈ w.aisles, 0 ≤ e.position.x ∧ 0 ≤ e.position.y ∧ 0 ≤ e.position.z := by
  obtain ⟨⟨n1, n2, n3, n4, n5⟩, hv, rfl⟩ := create_ok_iff.mp h
  intro w hw
  obtain ⟨m, b, hb, rfl⟩ := wsOutputs_mem 0 config.workstation_configs w hw
  obtain ⟨hgl, hgf, hgaps⟩ := hg b hb
  obtain ⟨m1, m2, m3, m4, m5, m6, m7, m8, m9⟩ := hv b hb
  have hww : 0 < workstationW config := not_le.mp n5
  have hbg : 0 ≤ resolvedBg config := not_lt.mp n3
  have haw : (1 : ℚ) ≤ aisleW (workstationW config) b.aisle_config := not_lt.mp m7
  have hal : (1 : ℚ) ≤ aisleL (resolvedL config) b.aisle_config := not_lt.mp m8
  have hfh : (10 : ℚ) ≤ floorH (resolvedH config) b.aisle_config := not_lt.mp m9
  have hstart : 0 ≤ (m : ℚ) * (workstationW config + resolvedBg config) :=
    mul_nonneg (Nat.cast_nonneg m) (by linarith)
  constructor
  · exact ⟨hstart, le_refl 0, le_refl 0⟩
  · intro e he
    rw [wsOutput_aisles] at he
    obtain ⟨r, c, f, hr, hc, hf, rfl⟩ := wsAisles_mem he
    refine ⟨?_, ?_, ?_⟩
    · show 0 ≤ slotX ((m : ℚ) * (workstationW config + resolvedBg config) +
        resolvedGl b.aisle_config) (aisleW (workstationW config) b.aisle_config)
        (customGaps b.aisle_config) c
      unfold slotX
      have hsum : 0 ≤ ((customGaps b.aisle_config).take c).sum :=
        List.sum_nonneg (fun g hgm => hgaps g (List.take_subset c _ hgm))
      have hc2 : 0 ≤ (c : ℚ) * aisleW (workstationW config) b.aisle_config :=
        mul_nonneg (Nat.cast_nonneg c) (by linarith)
      linarith
    · show 0 ≤ resolvedGf b.aisle_config +
        (r : ℚ) * aisleL (resolvedL config) b.aisle_config
      have hr2 : 0 ≤ (r : ℚ) * aisleL (resolvedL config) b.aisle_config :=
        mul_nonneg (Nat.cast_nonneg r) (by linarith)
      linarith
    · show 0 ≤ (f : ℚ) * floorH (resolvedH config) b.aisle_config
      exact mul_nonneg (Nat.cast_nonneg f) (by linarith)

/-- C9 witness: the amended non-negativity statement instantiated on the
sample scenario (all gaps zero), at the first slot of the first partition. -/
theorem nonneg_positions_of_nonneg_gaps_witness :
    0 ≤ sampleEntry.position.x ∧ 0 ≤ sampleEntry.position.y ∧
      0 ≤ sampleEntry.position.z := by
  have hgaps : ∀ b ∈ sampleConfig.workstation_configs,
      0 ≤ resolvedGl b.aisle_config ∧ 0 ≤ resolvedGf b.aisle_config ∧
        ∀ g ∈ customGaps b.aisle_config, 0 ≤ g := by
    intro b hb
    have hb2 : b = simpleWs := by simpa [sampleConfig] using hb
    subst hb2
    refine ⟨?_, ?_, ?_⟩
    · simp [resolvedGl, simpleWs, emptyAisleCfg, to_cm_num_cm]
    · simp [resolvedGf, simpleWs, emptyAisleCfg, to_cm_num_cm]
    · intro g hgm
      simp [customGaps, simpleWs, emptyAisleCfg] at hgm
  exact (nonneg_positions_of_nonneg_gaps sampleConfig (layoutOutput sampleConfig) sample_ok
    hgaps ((layoutOutput sampleConfig).workstations.get ⟨0, sample_idx0⟩)
    (List.get_mem _ _ _)).2 sampleEntry (List.get_mem _ _ _)
